import Mathlib

/-!
Shallow embedding of `src/shotty/shotty.py` (SnapshotAlyzer 300).

The script manages EC2 instances, volumes and snapshots through boto3.
We embed the pure decision logic over explicit data:

* `Snapshot`, `Volume`, `Instance` mirror the attributes the script reads.
* The boto3 surface (the "Inventory Service") is modelled by a concrete
  inventory `List Instance`; the service calls the script issues are
  recorded as an `Event` trace.  Provider `ClientError`s are modelled by
  behaviour flags (`createFails`, `stopFails`, ...) on the resources:
  the flag says whether the corresponding request raises for this run.
* Python truthiness matters (`if project:`, `snapshots and ...`), so
  optional strings are tested with `optTruthy` and the value returned by
  `has_pending_snapshot` is kept as a Python value (`PyRet`), since the
  function returns the empty *list* (not `False`) on a volume with no
  snapshots.
-/

namespace Shotty

/-- A snapshot as read by the script: `s.id`, `s.state` (plus
`progress`/`start_time`, which no decision depends on). -/
structure Snapshot where
  id : String
  state : String
  deriving Repr, DecidableEq

/-- A volume: its id, its snapshots in the service-returned order
(most recent first), and the run behaviour of `create_snapshot` on it
(`createFails = true` means the request raises `ClientError`). -/
structure Volume where
  id : String
  snapshots : List Snapshot
  createFails : Bool
  deriving Repr, DecidableEq

/-- An instance with the attributes the script reads, its attached
volumes, and the run behaviour of the provider requests issued against
it (`stopFails`, `startFails`, `rebootFails` model `ClientError`s). -/
structure Instance where
  id : String
  instance_type : String
  az : String
  state : String
  public_dns_name : String
  tags : Option (List (String × String))
  volumes : List Volume
  stopFails : Bool
  startFails : Bool
  rebootFails : Bool
  deriving Repr, DecidableEq

/-- Python truthiness of a click option value: `None` and `""` are
falsy, any other string is truthy. -/
def optTruthy : Option String → Bool
  | none => false
  | some s => !(s == "")

/-- The value of a Python expression `snapshots and snapshots[0].state == 'pending'`:
either the list itself (when the list is falsy) or a boolean. -/
inductive PyRet where
  | list (l : List Snapshot)
  | bool (b : Bool)
  deriving Repr, DecidableEq

/-- Python truthiness of a `PyRet` value. -/
def PyRet.truthy : PyRet → Bool
  | .list l => !l.isEmpty
  | .bool b => b

/-- Whether a `PyRet` value is an actual Python `bool`. -/
def PyRet.isBool : PyRet → Bool
  | .list _ => false
  | .bool _ => true

/-- `has_pending_snapshot` (shotty.py lines 25-27):
`snapshots = list(volume.snapshots.all()); return snapshots and snapshots[0].state == 'pending'`.
Python `and` returns the left operand when it is falsy (the empty list),
otherwise the right operand (a bool). -/
def has_pending_snapshot (snapshots : List Snapshot) : PyRet :=
  match snapshots with
  | [] => .list []
  | s :: _ => .bool (s.state == "pending")

/-- Value of the instance's `Project` tag, if present.  boto3 tag-filter
semantics (`tag:Project` equals value): the instance matches when some
tag pair has key `Project` and the given value. -/
def matchesProjectTag (p : String) (i : Instance) : Bool :=
  (i.tags.getD []).any (fun t => t.1 == "Project" && t.2 == p)

/-- Whether an instance matches the exact-id boto3 filter
`{'Name': 'instance-id', 'Values': [instance]}`. -/
def matchesIdFilter (iid : String) (i : Instance) : Bool :=
  i.id == iid

/-- `filter_instances` (shotty.py lines 11-23) over a concrete inventory
`inv` standing for `ec2.instances`:

* `if instance:` — filter by exact instance id;
* `elif project:` — filter by `tag:Project` equality;
* `else:` — `ec2.instances.all()`, the whole inventory.

(The Python parameter `instance` is spelled `instanceId` here because
`instance` is a Lean keyword.) -/
def filter_instances (inv : List Instance) (project instanceId : Option String) :
    List Instance :=
  if optTruthy instanceId then
    inv.filter (matchesIdFilter (instanceId.getD ""))
  else if optTruthy project then
    inv.filter (matchesProjectTag (project.getD ""))
  else
    inv

/-- Inventory Service calls and per-resource reports emitted while a
command runs, in program order.  `stopReq`/`startReq`/`rebootReq`/
`createReq` are the provider requests themselves; `*Err` events are the
`except botocore.exceptions.ClientError` reports; `skipped` is the
"snapshot already in progress" report; `waitStopped`/`waitRunning` are
the blocking waiters. -/
inductive Event where
  | stopReq (iid : String)
  | stopErr (iid : String)
  | startReq (iid : String)
  | startErr (iid : String)
  | rebootReq (iid : String)
  | rebootErr (iid : String)
  | waitStopped (iid : String)
  | waitRunning (iid : String)
  | skipped (vid : String)
  | createReq (vid : String)
  | createErr (vid : String)
  deriving Repr, DecidableEq

/-- Body of the inner volume loop of `create_snapshots`
(shotty.py lines 118-129): skip when the guard is truthy, otherwise
issue `create_snapshot`; a `ClientError` is caught, reported, and the
loop continues with the next volume. -/
def snapshotVolume (v : Volume) : List Event :=
  if (has_pending_snapshot v.snapshots).truthy then
    [.skipped v.id]
  else if v.createFails then
    [.createReq v.id, .createErr v.id]
  else
    [.createReq v.id]

/-- Body of the outer instance loop of `create_snapshots`
(shotty.py lines 113-136).  `last_state = i.state['Name']` is read
before the stop; `i.stop()` and `i.start()` are *not* guarded by any
`try`, so a `ClientError` there propagates out of the function — the
returned `Bool` is `false` when the iteration aborted with an uncaught
exception, and the trace holds the events emitted up to that point. -/
def snapshotInstance (i : Instance) : List Event × Bool :=
  if i.stopFails then
    ([.stopReq i.id], false)
  else
    let evs := .stopReq i.id :: .waitStopped i.id ::
      i.volumes.flatMap snapshotVolume
    if i.state == "running" then
      if i.startFails then
        (evs ++ [.startReq i.id], false)
      else
        (evs ++ [.startReq i.id, .waitRunning i.id], true)
    else
      (evs, true)

/-- The instance loop of `create_snapshots`: instances are processed in
order; an uncaught exception in one instance's pipeline ends the whole
loop (the `Bool` is `false` and later instances are never reached). -/
def snapshotLoop : List Instance → List Event × Bool
  | [] => ([], true)
  | i :: rest =>
    if (snapshotInstance i).2 then
      ((snapshotInstance i).1 ++ (snapshotLoop rest).1, (snapshotLoop rest).2)
    else
      snapshotInstance i

/-- The message of the `Exception` raised by the configuration gate of
the four mutating commands. -/
def gateMsg : String :=
  "Choose a project or use --force option to apply for all instances"

/-- The `instances snapshot` command, `create_snapshots`
(shotty.py lines 104-140): the configuration gate
`if not project and not force: raise Exception(...)` runs before
`filter_instances`, so on the error path no Inventory Service call is
made; otherwise the selected instances are processed by the loop. -/
def create_snapshots (inv : List Instance) (project : Option String)
    (force : Bool) (instanceId : Option String) :
    Except String (List Event × Bool) :=
  if !optTruthy project && !force then
    .error gateMsg
  else
    .ok (snapshotLoop (filter_instances inv project instanceId))

/-- Loop body of `stop_instances` (shotty.py lines 178-184): `i.stop()`
inside `try`; a `ClientError` is reported and the loop continues. -/
def stopOne (i : Instance) : List Event :=
  if i.stopFails then [.stopReq i.id, .stopErr i.id] else [.stopReq i.id]

/-- Loop body of `start_instances` (shotty.py lines 201-207). -/
def startOne (i : Instance) : List Event :=
  if i.startFails then [.startReq i.id, .startErr i.id] else [.startReq i.id]

/-- Loop body of `reboot_instances` (shotty.py lines 224-230). -/
def rebootOne (i : Instance) : List Event :=
  if i.rebootFails then [.rebootReq i.id, .rebootErr i.id] else [.rebootReq i.id]

/-- The `instances stop` command, `stop_instances`
(shotty.py lines 169-184): gate first, then stop every selected
instance, catching `ClientError` per instance. -/
def stop_instances (inv : List Instance) (project : Option String)
    (force : Bool) (instanceId : Option String) :
    Except String (List Event) :=
  if !optTruthy project && !force then
    .error gateMsg
  else
    .ok ((filter_instances inv project instanceId).flatMap stopOne)

/-- The `instances start` command, `start_instances`
(shotty.py lines 192-207). -/
def start_instances (inv : List Instance) (project : Option String)
    (force : Bool) (instanceId : Option String) :
    Except String (List Event) :=
  if !optTruthy project && !force then
    .error gateMsg
  else
    .ok ((filter_instances inv project instanceId).flatMap startOne)

/-- The `instances reboot` command, `reboot_instances`
(shotty.py lines 215-230). -/
def reboot_instances (inv : List Instance) (project : Option String)
    (force : Bool) (instanceId : Option String) :
    Except String (List Event) :=
  if !optTruthy project && !force then
    .error gateMsg
  else
    .ok ((filter_instances inv project instanceId).flatMap rebootOne)

/-- Per-volume part of `list_snapshots` (shotty.py lines 53-63): print
each snapshot in service order; after the print, `if s.state ==
'completed' and not list_all: break`.  The result is the list of
snapshots printed for this volume, in print order. -/
def snapshotRows (list_all : Bool) : List Snapshot → List Snapshot
  | [] => []
  | s :: rest =>
    s :: (if s.state == "completed" && !list_all then [] else snapshotRows list_all rest)

/-- Python `{t['Key']: t['Value'] for t in i.tags or []}` followed by
`.get(key, default)`: `i.tags or []` turns a missing (`None`) tag list
into `[]`; in a dict comprehension a later duplicate key overwrites an
earlier one, so `.get` finds the *last* pair with the key. -/
def tagsGet (tags : Option (List (String × String))) (key dflt : String) : String :=
  match ((tags.getD []).reverse.find? (fun t => t.1 == key)) with
  | some t => t.2
  | none => dflt

/-- One printed row of `list_instances` (shotty.py lines 152-160). -/
def instanceRow (i : Instance) : List String :=
  [i.id, i.instance_type, i.az, i.state, i.public_dns_name,
   tagsGet i.tags "Project" "<no project>"]

/-- The `instances list` command, `list_instances`
(shotty.py lines 147-161): one row per selected instance. -/
def list_instances (inv : List Instance) (project instanceId : Option String) :
    List (List String) :=
  (filter_instances inv project instanceId).map instanceRow

/-- Whether a command invocation raised (modelled as `Except.error`). -/
def errored {α : Type} : Except String α → Bool
  | .error _ => true
  | .ok _ => false

/-- Spec-side description of the default snapshot listing for one
volume: the most-recent-first run of snapshots up to and including the
first `completed` one (spec §4.4 and the §8 scenario).  Written from
the spec's words, to be compared with `snapshotRows`. -/
def upToFirstCompleted (snaps : List Snapshot) : List Snapshot :=
  snaps.takeWhile (fun s => !(s.state == "completed")) ++
    (snaps.dropWhile (fun s => !(s.state == "completed"))).take 1

/-! Concrete resources used by witnesses and counterexamples. -/

/-- A pending snapshot. -/
def snapPending : Snapshot := ⟨"snap-p", "pending"⟩

/-- A completed snapshot. -/
def snapDone : Snapshot := ⟨"snap-c", "completed"⟩

/-- A volume with no snapshots; `create_snapshot` succeeds on it. -/
def volFresh : Volume := ⟨"vol-1", [], false⟩

/-- A volume whose most recent snapshot is pending. -/
def volPending : Volume := ⟨"vol-2", [snapPending], false⟩

/-- A volume with a completed snapshot, on which `create_snapshot`
raises `ClientError`. -/
def volFailing : Volume := ⟨"vol-3", [snapDone], true⟩

/-- A running instance of project `alpha` with a fresh and a pending
volume; all provider requests succeed. -/
def instRunning : Instance :=
  ⟨"i-1", "t2.micro", "us-east-1a", "running", "dns1",
    some [("Project", "alpha")], [volFresh, volPending], false, false, false⟩

/-- A stopped instance without tags; all provider requests succeed. -/
def instStopped : Instance :=
  ⟨"i-2", "t2.micro", "us-east-1b", "stopped", "dns2",
    none, [volFailing, volFresh], false, false, false⟩

/-- A running instance whose stop request raises `ClientError`. -/
def instStopFail : Instance :=
  ⟨"i-3", "t2.micro", "us-east-1c", "running", "dns3",
    none, [volFresh], true, false, false⟩

/-- A running instance whose first volume's `create_snapshot` raises
`ClientError` while the second volume's succeeds. -/
def instTwoVols : Instance :=
  ⟨"i-4", "t2.micro", "us-east-1d", "running", "dns4",
    none, [volFailing, volFresh], false, false, false⟩

/-! ### Helper lemmas -/

/-- `snapshotVolume` attempts the create request exactly on an
unguarded volume, and reports the `ClientError` when the request
raises. -/
theorem snapshotVolume_attempts (v : Volume)
    (hguard : (has_pending_snapshot v.snapshots).truthy = false) :
    Event.createReq v.id ∈ snapshotVolume v ∧
      (v.createFails = true → Event.createErr v.id ∈ snapshotVolume v) := by
  cases hc : v.createFails <;> simp [snapshotVolume, hguard, hc]

/-- A create request in `snapshotVolume v` names `v` itself and can
only occur when the guard was falsy for `v`. -/
theorem createReq_mem_snapshotVolume (vid : String) (v : Volume)
    (h : Event.createReq vid ∈ snapshotVolume v) :
    v.id = vid ∧ (has_pending_snapshot v.snapshots).truthy = false := by
  cases hg : (has_pending_snapshot v.snapshots).truthy <;>
    cases hc : v.createFails <;> simp [snapshotVolume, hg, hc] at h <;>
      simp [h, hg]

/-- `snapshotVolume` never emits a start request. -/
theorem startReq_not_mem_snapshotVolume (iid : String) (v : Volume) :
    Event.startReq iid ∉ snapshotVolume v := by
  cases hg : (has_pending_snapshot v.snapshots).truthy <;>
    cases hc : v.createFails <;> simp [snapshotVolume, hg, hc]

/-- Every event of the volume loop appears in the instance's trace
when the stop request of the instance succeeds. -/
theorem mem_snapshotInstance_of_mem_volumes (i : Instance)
    (hs : i.stopFails = false) (e : Event)
    (he : e ∈ i.volumes.flatMap snapshotVolume) :
    e ∈ (snapshotInstance i).1 := by
  by_cases hr : i.state = "running" <;> cases hf : i.startFails <;>
    simp [snapshotInstance, hs, hr, hf, he]

/-- A create request in an instance's trace comes from its volume
loop. -/
theorem createReq_mem_snapshotInstance (vid : String) (i : Instance)
    (h : Event.createReq vid ∈ (snapshotInstance i).1) :
    ∃ v ∈ i.volumes, Event.createReq vid ∈ snapshotVolume v := by
  cases hs : i.stopFails <;>
    by_cases hr : i.state = "running" <;> cases hf : i.startFails <;>
      simp [snapshotInstance, hs, hr, hf, List.mem_flatMap] at h <;>
        exact h

/-- An instance's trace contains a start request exactly when its stop
succeeded, the request names the instance, and the recorded prior
state was `running`. -/
theorem startReq_mem_snapshotInstance (iid : String) (i : Instance) :
    Event.startReq iid ∈ (snapshotInstance i).1 ↔
      i.stopFails = false ∧ i.id = iid ∧ i.state = "running" := by
  cases hs : i.stopFails <;>
    cases hr : i.state == "running" <;> cases hf : i.startFails <;>
      simp [snapshotInstance, hs, hr, hf, List.mem_flatMap,
        startReq_not_mem_snapshotVolume]
  · intro _ h2; rw [h2] at hr; simp at hr
  · intro _ h2; rw [h2] at hr; simp at hr
  · exact ⟨fun h => ⟨h.symm, beq_iff_eq.mp hr⟩, fun h => h.1.symm⟩
  · exact ⟨fun h => ⟨h.symm, beq_iff_eq.mp hr⟩, fun h => h.1.symm⟩

/-- An instance's pipeline completes normally when its stop and start
requests do not raise. -/
theorem snapshotInstance_completes (i : Instance)
    (hs : i.stopFails = false) (hf : i.startFails = false) :
    (snapshotInstance i).2 = true := by
  by_cases hr : i.state = "running" <;> simp [snapshotInstance, hs, hf, hr]

/-- When no instance's pipeline aborts, the loop processes every
instance in order and completes. -/
theorem snapshotLoop_no_abort (l : List Instance)
    (h : ∀ j ∈ l, (snapshotInstance j).2 = true) :
    snapshotLoop l = (l.flatMap (fun i => (snapshotInstance i).1), true) := by
  induction l with
  | nil => rfl
  | cons i rest ih =>
    have hi := h i (List.mem_cons_self i rest)
    have hrest := ih (fun j hj => h j (List.mem_cons_of_mem i hj))
    simp [snapshotLoop, hi, hrest]

/-- Every event of the loop's trace belongs to some processed
instance's trace. -/
theorem mem_snapshotLoop (e : Event) :
    ∀ l : List Instance, e ∈ (snapshotLoop l).1 →
      ∃ i ∈ l, e ∈ (snapshotInstance i).1 := by
  intro l
  induction l with
  | nil => simp [snapshotLoop]
  | cons i rest ih =>
    intro h
    rw [snapshotLoop] at h
    cases hr : (snapshotInstance i).2 <;> simp [hr] at h
    · exact ⟨i, List.mem_cons_self i rest, h⟩
    · rcases h with h | h
      · exact ⟨i, List.mem_cons_self i rest, h⟩
      · obtain ⟨j, hj, hje⟩ := ih h
        exact ⟨j, List.mem_cons_of_mem i hj, hje⟩

/-- The id-filtered inventory has at most one element when instance
ids are unique in the inventory. -/
theorem filter_matchesId_length_le (inv : List Instance) (iid : String)
    (hnodup : (inv.map Instance.id).Nodup) :
    (inv.filter (matchesIdFilter iid)).length ≤ 1 := by
  induction inv with
  | nil => simp
  | cons i rest ih =>
    rw [List.map_cons, List.nodup_cons] at hnodup
    by_cases h : matchesIdFilter iid i = true
    · have hrest : rest.filter (matchesIdFilter iid) = [] := by
        rw [List.filter_eq_nil_iff]
        intro a ha hpa
        apply hnodup.1
        have haid : a.id = iid := by simpa [matchesIdFilter] using hpa
        have hiid2 : i.id = iid := by simpa [matchesIdFilter] using h
        rw [hiid2, ← haid]
        exact List.mem_map_of_mem Instance.id ha
      simp [List.filter_cons, h, hrest]
    · simp only [List.filter_cons, h, if_false]
      exact ih hnodup.2

/-! ### Claims -/

/-- C3: `has_pending_snapshot` is falsy for a volume with zero
snapshots; truthy iff the first snapshot of the service-ordered
listing (most recent) has state `pending`; falsy when that first
snapshot's state is `completed` or `error`, regardless of the states
of the older snapshots. -/
theorem hasPendingSnapshot_spec :
    (has_pending_snapshot []).truthy = false ∧
    (∀ (s : Snapshot) (rest : List Snapshot),
      (has_pending_snapshot (s :: rest)).truthy = true ↔ s.state = "pending") ∧
    (∀ (s : Snapshot) (rest : List Snapshot),
      s.state = "completed" ∨ s.state = "error" →
      (has_pending_snapshot (s :: rest)).truthy = false) := by
  refine ⟨rfl, ?_, ?_⟩
  · intro s rest
    simp [has_pending_snapshot, PyRet.truthy]
  · intro s rest h
    rcases h with h | h <;> simp [has_pending_snapshot, PyRet.truthy, h]

/-- Witness for C3: a volume whose most recent snapshot is completed
has no pending snapshot, even with an older pending one behind it. -/
theorem hasPendingSnapshot_spec_witness :
    (has_pending_snapshot [⟨"s-9", "completed"⟩, ⟨"s-8", "pending"⟩]).truthy
      = false :=
  hasPendingSnapshot_spec.2.2 ⟨"s-9", "completed"⟩ [⟨"s-8", "pending"⟩]
    (Or.inl rfl)

/-- C9: on an empty snapshot list `has_pending_snapshot` returns the
empty list itself (a falsy non-boolean Python value), not the boolean
`False`; only on a non-empty list is the result an actual boolean. -/
theorem hasPendingSnapshot_empty_returns_list :
    has_pending_snapshot [] = PyRet.list [] ∧
    (has_pending_snapshot []).isBool = false ∧
    ∀ (s : Snapshot) (rest : List Snapshot),
      (has_pending_snapshot (s :: rest)).isBool = true :=
  ⟨rfl, rfl, fun _ _ => rfl⟩

/-- C8: the `all` mode of the snapshot listing prints every snapshot
of a volume in listing order, while the default mode prints the
most-recent-first run up to and including the first `completed`
snapshot and then stops; on `[s1(completed), s2(pending),
s3(completed)]` the default mode prints only `s1` and the `all` mode
prints `s1, s2, s3`. -/
theorem snapshotRows_modes (snaps : List Snapshot) :
    snapshotRows true snaps = snaps ∧
    snapshotRows false snaps = upToFirstCompleted snaps ∧
    snapshotRows false
        [⟨"s1", "completed"⟩, ⟨"s2", "pending"⟩, ⟨"s3", "completed"⟩]
      = [⟨"s1", "completed"⟩] ∧
    snapshotRows true
        [⟨"s1", "completed"⟩, ⟨"s2", "pending"⟩, ⟨"s3", "completed"⟩]
      = [⟨"s1", "completed"⟩, ⟨"s2", "pending"⟩, ⟨"s3", "completed"⟩] := by
  refine ⟨?_, ?_, by decide, by decide⟩
  · induction snaps with
    | nil => rfl
    | cons s rest ih => simp [snapshotRows, ih]
  · induction snaps with
    | nil => rfl
    | cons s rest ih =>
      cases h : s.state == "completed" <;>
        simp [snapshotRows, upToFirstCompleted, List.takeWhile_cons,
          List.dropWhile_cons, h]
      simpa [upToFirstCompleted] using ih

/-- C10: the instance listing survives instances whose `tags`
attribute is `None`: every selected instance still yields a row, and
when the instance has no tags, or no `Project` key among them, the
project column is the default `<no project>`. -/
theorem list_instances_handles_missing_tags
    (inv : List Instance) (project instanceId : Option String) :
    (list_instances inv project instanceId).length
      = (filter_instances inv project instanceId).length ∧
    (∀ i ∈ filter_instances inv project instanceId,
      instanceRow i ∈ list_instances inv project instanceId) ∧
    (∀ i : Instance, i.tags = none →
      instanceRow i
        = [i.id, i.instance_type, i.az, i.state, i.public_dns_name,
            "<no project>"]) ∧
    (∀ (i : Instance) (tl : List (String × String)), i.tags = some tl →
      (∀ t ∈ tl, ¬t.1 = "Project") →
      instanceRow i
        = [i.id, i.instance_type, i.az, i.state, i.public_dns_name,
            "<no project>"]) := by
  refine ⟨by simp [list_instances], ?_, ?_, ?_⟩
  · intro i hi
    exact List.mem_map_of_mem instanceRow hi
  · intro i h
    simp [instanceRow, tagsGet, h]
  · intro i tl h hnone
    have hfind : tl.reverse.find? (fun t => t.1 == "Project") = none := by
      rw [List.find?_eq_none]
      intro x hx
      simpa using hnone x (List.mem_reverse.mp hx)
    simp [instanceRow, tagsGet, h, hfind]

/-- Witness for C10: the untagged stopped instance produces a row with
the default project column. -/
theorem list_instances_handles_missing_tags_witness :
    instanceRow instStopped
      = ["i-2", "t2.micro", "us-east-1b", "stopped", "dns2", "<no project>"] :=
  (list_instances_handles_missing_tags [] none none).2.2.1 instStopped rfl

/-- C7: with `instanceId` set, the selector filters on the exact id
alone — for inventories with unique instance ids it returns at most
one instance, that instance's id equals `instanceId`, and the result
does not depend on `projectTag`; with neither option set it returns
the unfiltered full inventory. -/
theorem filter_instances_spec (inv : List Instance) (project : Option String)
    (iid : String) (hiid : ¬iid = "")
    (hnodup : (inv.map Instance.id).Nodup) :
    (filter_instances inv project (some iid)).length ≤ 1 ∧
    (∀ i ∈ filter_instances inv project (some iid), i.id = iid) ∧
    (∀ project2 : Option String,
      filter_instances inv project (some iid)
        = filter_instances inv project2 (some iid)) ∧
    filter_instances inv none none = inv := by
  have htr : optTruthy (some iid) = true := by simp [optTruthy, hiid]
  refine ⟨?_, ?_, ?_, rfl⟩
  · simp only [filter_instances, htr, if_true]
    exact filter_matchesId_length_le inv iid hnodup
  · simp only [filter_instances, htr, if_true]
    intro i hi
    simpa [matchesIdFilter] using (List.mem_filter.mp hi).2
  · intro project2
    simp [filter_instances, htr]

/-- Witness for C7: selecting `i-1` out of a two-instance inventory
with a project tag also set yields at most one instance. -/
theorem filter_instances_spec_witness :
    (filter_instances [instRunning, instStopped] (some "alpha")
        (some "i-1")).length ≤ 1 :=
  (filter_instances_spec [instRunning, instStopped] (some "alpha") "i-1"
    (by decide) (by decide)).1

/-- C1 counterexample: with `--instance i-1` supplied but no
`--project` and no `--force`, `instances snapshot` and `instances
stop` still raise the configuration error, though the claim says
supplying `--instance` alone passes the gate. -/
theorem gate_ignores_instance_counterexample :
    create_snapshots [instRunning] none false (some "i-1") = .error gateMsg ∧
    stop_instances [instRunning] none false (some "i-1") = .error gateMsg :=
  ⟨rfl, rfl⟩

/-- C1 (amended): every mutating subcommand raises the configuration
error iff `project` is unset (or empty) and `force` is false — the
`--instance` option plays no part in the gate; when the error is
raised the command returns it directly, before any Inventory Service
call, so the result carries no events. -/
theorem gate_requires_project_or_force (inv : List Instance)
    (project instanceId : Option String) (force : Bool) :
    errored (create_snapshots inv project force instanceId)
      = (!optTruthy project && !force) ∧
    errored (stop_instances inv project force instanceId)
      = (!optTruthy project && !force) ∧
    errored (start_instances inv project force instanceId)
      = (!optTruthy project && !force) ∧
    errored (reboot_instances inv project force instanceId)
      = (!optTruthy project && !force) ∧
    (optTruthy project = false → force = false →
      create_snapshots inv project force instanceId = .error gateMsg ∧
      stop_instances inv project force instanceId = .error gateMsg ∧
      start_instances inv project force instanceId = .error gateMsg ∧
      reboot_instances inv project force instanceId = .error gateMsg) := by
  cases hp : optTruthy project <;> cases hf : force <;>
    simp [create_snapshots, stop_instances, start_instances,
      reboot_instances, errored, hp, hf]

/-- Witness for C1 (amended): with neither project nor force, the stop
command raises the configuration error without touching the
inventory. -/
theorem gate_requires_project_or_force_witness :
    stop_instances [instRunning] none false none = .error gateMsg :=
  ((gate_requires_project_or_force [instRunning] none none false).2.2.2.2
    rfl rfl).2.1

/-- C2 counterexample: a `ClientError` raised by the *stop* request
inside the snapshot orchestrator is not recovered: the run over
`[instStopFail, instRunning]` (under `--force`) aborts after the
failing stop, and the second instance is never processed — no event
for `i-1` appears. -/
theorem snapshot_stop_error_not_recovered :
    create_snapshots [instStopFail, instRunning] none true none
      = .ok ([Event.stopReq "i-3"], false) ∧
    Event.stopReq "i-1" ∉ (snapshotLoop [instStopFail, instRunning]).1 := by
  constructor
  · rfl
  · decide

/-- C2 (amended): a provider client error on a single stop, start or
reboot request in the `instances stop`/`start`/`reboot` commands, and
on a `create_snapshot` request anywhere in the orchestrator, is
recovered locally — reported for that one resource, loop continues;
the stop and start requests *inside* the snapshot orchestrator,
however, are unguarded: a client error there aborts the rest of the
run. -/
theorem provider_error_isolation (inv : List Instance)
    (project instanceId : Option String) (force : Bool)
    (i : Instance) (hi : i ∈ filter_instances inv project instanceId) :
    (∀ evs, stop_instances inv project force instanceId = .ok evs →
      Event.stopReq i.id ∈ evs ∧
        (i.stopFails = true → Event.stopErr i.id ∈ evs)) ∧
    (∀ evs, start_instances inv project force instanceId = .ok evs →
      Event.startReq i.id ∈ evs ∧
        (i.startFails = true → Event.startErr i.id ∈ evs)) ∧
    (∀ evs, reboot_instances inv project force instanceId = .ok evs →
      Event.rebootReq i.id ∈ evs ∧
        (i.rebootFails = true → Event.rebootErr i.id ∈ evs)) ∧
    (i.stopFails = false →
      ∀ v ∈ i.volumes, (has_pending_snapshot v.snapshots).truthy = false →
        Event.createReq v.id ∈ (snapshotInstance i).1 ∧
          (v.createFails = true →
            Event.createErr v.id ∈ (snapshotInstance i).1)) ∧
    (i.stopFails = true → snapshotInstance i = ([Event.stopReq i.id], false)) := by
  refine ⟨?_, ?_, ?_, ?_, ?_⟩
  · intro evs hok
    rw [stop_instances] at hok
    cases hgate : (!optTruthy project && !force) <;> rw [hgate] at hok <;>
      simp at hok
    subst hok
    constructor
    · exact List.mem_flatMap.mpr ⟨i, hi, by cases h : i.stopFails <;>
        simp [stopOne, h]⟩
    · intro h
      exact List.mem_flatMap.mpr ⟨i, hi, by simp [stopOne, h]⟩
  · intro evs hok
    rw [start_instances] at hok
    cases hgate : (!optTruthy project && !force) <;> rw [hgate] at hok <;>
      simp at hok
    subst hok
    constructor
    · exact List.mem_flatMap.mpr ⟨i, hi, by cases h : i.startFails <;>
        simp [startOne, h]⟩
    · intro h
      exact List.mem_flatMap.mpr ⟨i, hi, by simp [startOne, h]⟩
  · intro evs hok
    rw [reboot_instances] at hok
    cases hgate : (!optTruthy project && !force) <;> rw [hgate] at hok <;>
      simp at hok
    subst hok
    constructor
    · exact List.mem_flatMap.mpr ⟨i, hi, by cases h : i.rebootFails <;>
        simp [rebootOne, h]⟩
    · intro h
      exact List.mem_flatMap.mpr ⟨i, hi, by simp [rebootOne, h]⟩
  · intro hs v hv hguard
    have hatt := snapshotVolume_attempts v hguard
    constructor
    · exact mem_snapshotInstance_of_mem_volumes i hs _
        (List.mem_flatMap.mpr ⟨v, hv, hatt.1⟩)
    · intro hc
      exact mem_snapshotInstance_of_mem_volumes i hs _
        (List.mem_flatMap.mpr ⟨v, hv, hatt.2 hc⟩)
  · intro hs
    simp [snapshotInstance, hs]

/-- Witness for C2 (amended): in the stop command over the inventory
`[instStopFail, instRunning]` run with `--force`, the failing stop of
`i-3` is reported and the loop still stops `i-1`. -/
theorem provider_error_isolation_witness :
    Event.stopReq "i-1"
      ∈ (filter_instances [instStopFail, instRunning] none none).flatMap
          stopOne :=
  ((provider_error_isolation [instStopFail, instRunning] none none true
      instRunning (by decide)).1
    ((filter_instances [instStopFail, instRunning] none none).flatMap stopOne)
    rfl).1

/-- C4: during the snapshot orchestration, a volume that the Snapshot
Guard reports pending is never passed to `create_snapshot`: if every
volume carrying id `vid` among the selected instances is flagged
pending, no create request for `vid` ever appears in the run's
trace. -/
theorem pending_volume_never_snapshotted (l : List Instance) (vid : String)
    (hpend : ∀ i ∈ l, ∀ v ∈ i.volumes, v.id = vid →
      (has_pending_snapshot v.snapshots).truthy = true) :
    Event.createReq vid ∉ (snapshotLoop l).1 := by
  intro hmem
  obtain ⟨i, hi, hie⟩ := mem_snapshotLoop _ l hmem
  obtain ⟨v, hv, hve⟩ := createReq_mem_snapshotInstance vid i hie
  obtain ⟨hid, hguard⟩ := createReq_mem_snapshotVolume vid v hve
  have := hpend i hi v hv hid
  rw [this] at hguard
  exact Bool.noConfusion hguard

/-- Witness for C4: `vol-2` of `instRunning` has a pending snapshot
and receives no create request during the orchestration. -/
theorem pending_volume_never_snapshotted_witness :
    Event.createReq "vol-2" ∉ (snapshotLoop [instRunning]).1 :=
  pending_volume_never_snapshotted [instRunning] "vol-2" (by decide)

/-- C5: the orchestrator records an instance's runtime state before
the stop request and, once its volumes are processed, issues a start
request exactly when that recorded prior state was `running`: whenever
a start request for the instance appears in the trace its prior state
was `running` (so an instance whose prior state was not `running`
never receives one), and when no stop or start request of the run
raises, the start request appears iff the prior state was `running`. -/
theorem start_iff_prior_running (l : List Instance)
    (hnodup : (l.map Instance.id).Nodup) (i : Instance) (hi : i ∈ l) :
    (Event.startReq i.id ∈ (snapshotLoop l).1 → i.state = "running") ∧
    ((∀ j ∈ l, j.stopFails = false ∧ j.startFails = false) →
      (Event.startReq i.id ∈ (snapshotLoop l).1 ↔ i.state = "running")) := by
  have hfwd : Event.startReq i.id ∈ (snapshotLoop l).1 → i.state = "running" := by
    intro hmem
    obtain ⟨j, hj, hje⟩ := mem_snapshotLoop _ l hmem
    obtain ⟨hjs, hjid, hjr⟩ := (startReq_mem_snapshotInstance i.id j).mp hje
    have : j = i := List.inj_on_of_nodup_map hnodup hj hi hjid
    rwa [← this]
  refine ⟨hfwd, fun hnf => ⟨hfwd, fun hrun => ?_⟩⟩
  rw [snapshotLoop_no_abort l
    (fun j hj => snapshotInstance_completes j (hnf j hj).1 (hnf j hj).2)]
  exact List.mem_flatMap.mpr ⟨i, hi,
    (startReq_mem_snapshotInstance i.id i).mpr ⟨(hnf i hi).1, rfl, hrun⟩⟩

/-- Witness for C5: in a failure-free run over `[instRunning,
instStopped]`, the previously running `i-1` is started again while the
previously stopped `i-2` never receives a start request. -/
theorem start_iff_prior_running_witness :
    Event.startReq "i-1" ∈ (snapshotLoop [instRunning, instStopped]).1 ∧
    Event.startReq "i-2" ∉ (snapshotLoop [instRunning, instStopped]).1 :=
  ⟨((start_iff_prior_running [instRunning, instStopped] (by decide)
        instRunning (by decide)).2 (by decide)).mpr rfl,
    fun h =>
      absurd ((start_iff_prior_running [instRunning, instStopped] (by decide)
        instStopped (by decide)).1 h) (by decide)⟩

/-- C6: a `ClientError` from `create_snapshot` on one volume does not
keep the orchestrator from attempting the remaining volumes of the
same instance or the remaining instances: in a run whose stop and
start requests succeed, every guard-clear volume of every selected
instance gets a create request (whatever the create-failure pattern),
each failing request is reported, and the loop runs to completion. -/
theorem snapshot_failure_does_not_stop_loop (l : List Instance)
    (hnf : ∀ j ∈ l, j.stopFails = false ∧ j.startFails = false)
    (i : Instance) (hi : i ∈ l) (v : Volume) (hv : v ∈ i.volumes)
    (hguard : (has_pending_snapshot v.snapshots).truthy = false) :
    Event.createReq v.id ∈ (snapshotLoop l).1 ∧
    (v.createFails = true → Event.createErr v.id ∈ (snapshotLoop l).1) ∧
    (snapshotLoop l).2 = true := by
  rw [snapshotLoop_no_abort l
    (fun j hj => snapshotInstance_completes j (hnf j hj).1 (hnf j hj).2)]
  have hatt := snapshotVolume_attempts v hguard
  refine ⟨?_, ?_, rfl⟩
  · exact List.mem_flatMap.mpr ⟨i, hi,
      mem_snapshotInstance_of_mem_volumes i (hnf i hi).1 _
        (List.mem_flatMap.mpr ⟨v, hv, hatt.1⟩)⟩
  · intro hc
    exact List.mem_flatMap.mpr ⟨i, hi,
      mem_snapshotInstance_of_mem_volumes i (hnf i hi).1 _
        (List.mem_flatMap.mpr ⟨v, hv, hatt.2 hc⟩)⟩

/-- Witness for C6: `vol-3` of `instTwoVols` fails to snapshot, yet
the fresh second volume `vol-1` still gets its create request, the
failure is reported, and the run over both instances completes. -/
theorem snapshot_failure_does_not_stop_loop_witness :
    Event.createReq "vol-1" ∈ (snapshotLoop [instTwoVols, instStopped]).1 :=
  (snapshot_failure_does_not_stop_loop [instTwoVols, instStopped] (by decide)
    instTwoVols (by decide) volFresh (by decide) (by decide)).1

end Shotty
